import Mathlib

/-!
Verification of the launcher and desktop-store logic of `app.py`
(tor-calculator). External effects (sockets, HTTP, the process table,
the filesystem, sqlite) are modelled as oracles supplied in an
environment record; each oracle answer is indexed by the call number so
that the world may change between calls, exactly as a TCP port may.
-/

namespace TorCalc

/-! ## Health prober (`is_http_healthy`, lines 79-97) -/

/-- Outcome of one HTTP GET attempt: either a response whose status code
and first bytes were read successfully, or any connection error, timeout
or read failure (all raised exceptions are caught by the probe). -/
inductive HttpOutcome where
  | response (status : Nat)
  | failure
deriving DecidableEq, Repr

/-- Model of `is_http_healthy`: a drained response with status in
[200, 500) is healthy; every exception path returns `false`. -/
def is_http_healthy : HttpOutcome → Bool
  | .response s => decide (200 ≤ s ∧ s < 500)
  | .failure => false

/-! ## Bounded health wait (`wait_for_http`, lines 100-107)

Time is modelled in milliseconds as a natural number. `probeOk n` is the
result of the `n`-th liveness probe, `dur n` the time that probe takes;
after a failed probe the loop sleeps 100 ms (`time.sleep(0.1)`). The
loop condition `time.time() < deadline` is re-checked before every
probe. Besides the outcome we return the start time of every probe
performed, so that "never polls past the deadline" is statable. -/

/-- Result of the polling loop: the index and start time of the first
successful probe, or a timeout (a raised `TimeoutError`). -/
inductive WaitOutcome where
  | healthy (n t : Nat)
  | timedOut
deriving DecidableEq, Repr

/-- Polling loop of `wait_for_http`: while `t < deadline`, probe; on
success return, else sleep 100 ms and retry. -/
def waitLoop (probeOk : Nat → Bool) (dur : Nat → Nat) (deadline t n : Nat) :
    WaitOutcome × List Nat :=
  if h : t < deadline then
    if probeOk n then (.healthy n t, [t])
    else
      let r := waitLoop probeOk dur deadline (t + dur n + 100) (n + 1)
      (r.1, t :: r.2)
  else (.timedOut, [])
termination_by deadline - t
decreasing_by omega

/-- Model of `wait_for_http`: `deadline = time.time() + timeout_s`, then
the polling loop starting at probe index 0. -/
def wait_for_http (probeOk : Nat → Bool) (dur : Nat → Nat) (start timeout : Nat) :
    WaitOutcome × List Nat :=
  waitLoop probeOk dur (start + timeout) start 0

/-! ## Port arbiter (`pick_free_port`, lines 110-122)

`openAt k p` answers the `k`-th `is_port_open` call of the enclosing
run, asked about port `p`; the call counter is threaded so the oracle
may answer differently over time. `eph` is the OS-assigned port obtained
by binding port 0 when the scan is exhausted. -/

/-- Scan of the fallback range: return the first port the connect-check
reports free, together with the next call counter. -/
def scanPorts (openAt : Nat → Nat → Bool) : List Nat → Nat → Option Nat × Nat
  | [], k => (none, k)
  | p :: rest, k =>
    if openAt k p then scanPorts openAt rest (k + 1) else (some p, k + 1)

/-- Model of `pick_free_port`: preferred port if free, else the first
free port among `preferred+1 … preferred+maxTries`, else the ephemeral
port. Returns the chosen port and the next call counter. -/
def pick_free_port (openAt : Nat → Nat → Bool) (eph preferred maxTries k : Nat) :
    Nat × Nat :=
  if !(openAt k preferred) then (preferred, k + 1)
  else
    match scanPorts openAt (List.range' (preferred + 1) maxTries) (k + 1) with
    | (some p, k') => (p, k')
    | (none, k') => (eph, k')

/-! ## String helpers for the command-line signature check

Python's `needle in haystack` substring test and `str.lower()`. -/

/-- Substring test on character lists: the needle is a prefix of some
suffix of the haystack. -/
def charsContain (needle : List Char) : List Char → Bool
  | [] => needle.isEmpty
  | c :: rest => needle.isPrefixOf (c :: rest) || charsContain needle rest

/-- Python `needle in hay` on strings. -/
def strContains (hay needle : String) : Bool :=
  charsContain needle.toList hay.toList

/-- Python `str.lower()`, character-wise. -/
def pyLower (s : String) : String :=
  String.mk (s.toList.map Char.toLower)

/-- Entrypoint fragment of the companion server, the literal
`"node_modules\\next\\dist\\server\\lib\\start-server.js"` of line 737. -/
def nextEntrySig : String :=
  "node_modules\\next\\dist\\server\\lib\\start-server.js"

/-- Signature check of line 737: the process command line, lowercased,
must contain both the (lowercased) UI root path and the companion-server
entrypoint. -/
def looksLikeOurNext (uiDir cmd : String) : Bool :=
  strContains (pyLower cmd) (pyLower uiDir) && strContains (pyLower cmd) nextEntrySig

/-! ## Launch flow of `main` (lines 713-777)

The world is an oracle environment: `httpHealthy h` is the answer of the
`h`-th `is_http_healthy` call at the target host, `portOpen k p` the
answer of the `k`-th `is_port_open` call asked about port `p`.
`killSucceeds` is the return value of `_windows_kill_pid`, which the
caller discards (line 738 ignores it); `unlinkOk` tells whether
`dev_lock.unlink` succeeds (its exceptions are caught, lines 752-756). -/

structure LaunchEnv where
  dev : Bool
  isWindows : Bool
  lockExists : Bool
  preferred : Nat
  uiDir : String
  listenPid : Option Nat
  cmdline : String
  killSucceeds : Bool
  unlinkOk : Bool
  ephemeralPort : Nat
  httpHealthy : Nat → Bool
  portOpen : Nat → Nat → Bool

/-- Outcome of the dev-lock stale-state branch: which PID (if any) was
passed to `_windows_kill_pid`, whether the lock file was removed, and
the next oracle call counters. -/
structure RecoverOut where
  killedPid : Option Nat
  lockDeleted : Bool
  hIdx : Nat
  kIdx : Nat
deriving DecidableEq, Repr

/-- Dev-lock recovery, lines 717-756. Runs only when `dev` and the lock
artifact exists; when the liveness probe passes the existing server is
reused untouched. Otherwise, on Windows, the owning PID is looked up and
killed only if its command line passes `looksLikeOurNext`; then the lock
is removed only if the follow-up `is_port_open` check reports the port
not open (and the unlink call itself does not fail). -/
def recoverPhase (e : LaunchEnv) : RecoverOut :=
  if e.dev && e.lockExists then
    if e.httpHealthy 0 then
      { killedPid := none, lockDeleted := false, hIdx := 1, kIdx := 0 }
    else
      let killedPid :=
        if e.isWindows then
          match e.listenPid with
          | some pid => if looksLikeOurNext e.uiDir e.cmdline then some pid else none
          | none => none
        else none
      let lockDel := if !(e.portOpen 0 e.preferred) then e.unlinkOk else false
      { killedPid := killedPid, lockDeleted := lockDel, hIdx := 1, kIdx := 1 }
  else
    { killedPid := none, lockDeleted := false, hIdx := 0, kIdx := 0 }

/-- Port selection after recovery, lines 758-773: if the port is open
but unhealthy and we are not in dev mode, `pick_free_port` (max 25
tries) chooses another port; otherwise the preferred port stands.
Returns the chosen port and the next `is_port_open` call counter. -/
def portPhase (e : LaunchEnv) (h k : Nat) : Nat × Nat :=
  if e.portOpen k e.preferred then
    if e.httpHealthy h then (e.preferred, k + 1)
    else if !e.dev then
      pick_free_port e.portOpen e.ephemeralPort e.preferred 25 (k + 1)
    else (e.preferred, k + 1)
  else (e.preferred, k + 1)

/-- Final observable outcome of the launch flow up to the spawn site. -/
structure LaunchResult where
  killedPid : Option Nat
  lockDeleted : Bool
  port : Nat
  spawnCount : Nat
  guardIdx : Nat
deriving DecidableEq, Repr

/-- Lines 713-777 of `main` in server mode: dev-lock recovery, port
selection, then the spawn guard `if not is_port_open(...)` of line 775
deciding whether `start_next_server` is called. -/
def launchFlow (e : LaunchEnv) : LaunchResult :=
  let r := recoverPhase e
  let pk := portPhase e r.hIdx r.kIdx
  let spawned := !(e.portOpen pk.2 pk.1)
  { killedPid := r.killedPid
    lockDeleted := r.lockDeleted
    port := pk.1
    spawnCount := if spawned then 1 else 0
    guardIdx := pk.2 }

/-! ## Desktop API persisted store (`DesktopApi`, lines 388-631)

The sqlite connection is a pure state: the `users` and `transactions`
tables plus a commit counter. Failure injection: `dbFail n` makes the
`n`-th database call of the current operation raise; the surrounding
`try/except` of each operation converts any raise into the
`INTERNAL_ERROR` result. Python builtins that this file does not
re-implement are environment parameters: `hash` is the salted sha256 of
`_hash_password`, `parseFloat` is `float(str)`, `floatStr` is
`str(float)`. `now_ms` is `int(time.time()*1000)`, `nowIso` is
`_utc_iso_now()`, `savePath` the result of `_choose_save_path` (which
catches its own exceptions and yields `None`), `writeOk` whether
`Path.write_text` succeeds. -/

structure UserRow where
  username : String
  password_hash : String
  status : String
deriving DecidableEq, Repr

structure TxRow where
  id : Int
  amount : Rat
  comment : String
  created_at : String
deriving DecidableEq, Repr

structure DbState where
  users : List UserRow
  txs : List TxRow
  commits : Nat
deriving DecidableEq, Repr

structure ApiEnv where
  hash : String → String
  parseFloat : String → Option Rat
  floatStr : Rat → String
  dbFail : Nat → Bool
  now_ms : Int
  nowIso : String
  savePath : Option String
  writeOk : Bool

/-- Result of one API operation: the success payload, or the tagged
error code of the returned `{"ok": False, "error": code}` dictionary. -/
inductive ApiRes (α : Type) where
  | ok (payload : α)
  | err (code : String)
deriving DecidableEq, Repr

/-- Python `str.strip()`: whitespace removed from both ends. -/
def pyStrip (s : String) : String :=
  String.mk (((s.toList.dropWhile Char.isWhitespace).reverse.dropWhile
    Char.isWhitespace).reverse)

/-- Amount argument of `transaction_add`, typed `float | str` in the
source; `float(amount)` is the identity on floats and `parseFloat` on
strings. -/
inductive PyNum where
  | float (q : Rat)
  | str (s : String)
deriving DecidableEq, Repr

/-- Python `float(amount)` for the `float | str` input, `none` when the
conversion raises. -/
def floatVal (env : ApiEnv) : PyNum → Option Rat
  | .float q => some q
  | .str s => env.parseFloat s

/-- Descending order on `created_at` used by
`ORDER BY created_at DESC` (sqlite compares TEXT bytewise, which agrees
with lexicographic order on valid UTF-8). -/
def txOrderDesc (a b : TxRow) : Prop :=
  b.created_at ≤ a.created_at

instance : DecidableRel txOrderDesc := fun a b =>
  inferInstanceAs (Decidable (b.created_at ≤ a.created_at))

instance : IsTotal TxRow txOrderDesc :=
  ⟨fun a b => (le_total b.created_at a.created_at).elim Or.inl Or.inr⟩

instance : IsTrans TxRow txOrderDesc :=
  ⟨fun _ _ _ hab hbc => le_trans hbc hab⟩

/-- Item dictionary returned per row by `transactions_list`. -/
structure TxItem where
  id : Int
  amount : Rat
  comment : String
  createdAt : String
deriving DecidableEq, Repr

/-- Row-to-item projection of lines 482-490 (`int(r["id"])`,
`float(r["amount"])` and `r["comment"] or ""` are identities on the
typed columns, the `comment` column being NOT NULL). -/
def toItem (r : TxRow) : TxItem :=
  { id := r.id, amount := r.amount, comment := r.comment, createdAt := r.created_at }

/-- Lines 457-474, `auth_login`. Empty credentials are rejected before
any database call; then the user row is looked up by the normalized
username and the salted hash compared. Database failure raises into the
outer `except`, yielding `INTERNAL_ERROR`. -/
def auth_login (env : ApiEnv) (st : DbState) (username password : String) :
    ApiRes (String × String) :=
  let u := pyLower (pyStrip username)
  if u = "" || password = "" then .err "EMPTY_CREDENTIALS"
  else if env.dbFail 0 then .err "INTERNAL_ERROR"
  else
    match st.users.find? (fun r => r.username = u) with
    | none => .err "INVALID_CREDENTIALS"
    | some row =>
      if env.hash password ≠ row.password_hash then .err "INVALID_CREDENTIALS"
      else .ok (row.username, row.status)

/-- Lines 476-494, `transactions_list`: SELECT ordered by
`created_at DESC`, projected to item dictionaries. -/
def transactions_list (env : ApiEnv) (st : DbState) : ApiRes (List TxItem) :=
  if env.dbFail 0 then .err "INTERNAL_ERROR"
  else .ok ((List.insertionSort txOrderDesc st.txs).map toItem)

/-- Lines 496-518, `transaction_add`. The inner `try` around
`float(amount)` yields `INVALID_AMOUNT` without touching the store; a
convertible amount is inserted (db call 0) and committed (db call 1). -/
def transaction_add (env : ApiEnv) (st : DbState) (amount : PyNum) (comment : String) :
    DbState × ApiRes TxItem :=
  match floatVal env amount with
  | none => (st, .err "INVALID_AMOUNT")
  | some num =>
    let tx_id : Int := env.now_ms
    let created_at := env.nowIso
    let comm := pyStrip comment
    if env.dbFail 0 then (st, .err "INTERNAL_ERROR")
    else
      let st1 := { st with txs := st.txs ++ [⟨tx_id, num, comm, created_at⟩] }
      if env.dbFail 1 then (st1, .err "INTERNAL_ERROR")
      else ({ st1 with commits := st1.commits + 1 },
        .ok { id := tx_id, amount := num, comment := comm, createdAt := created_at })

/-- Lines 520-528, `transaction_delete`: DELETE by id (db call 0) then
commit (db call 1); the payload is `cur.rowcount`. -/
def transaction_delete (env : ApiEnv) (st : DbState) (tx_id : Int) :
    DbState × ApiRes Nat :=
  if env.dbFail 0 then (st, .err "INTERNAL_ERROR")
  else
    let remaining := st.txs.filter (fun r => r.id ≠ tx_id)
    let st1 := { st with txs := remaining }
    if env.dbFail 1 then (st1, .err "INTERNAL_ERROR")
    else ({ st1 with commits := st1.commits + 1 },
      .ok (st.txs.length - remaining.length))

/-- Lines 530-538, `transactions_clear`: DELETE all rows (db call 0)
then commit (db call 1). -/
def transactions_clear (env : ApiEnv) (st : DbState) : DbState × ApiRes Unit :=
  if env.dbFail 0 then (st, .err "INTERNAL_ERROR")
  else
    let st1 := { st with txs := [] }
    if env.dbFail 1 then (st1, .err "INTERNAL_ERROR")
    else ({ st1 with commits := st1.commits + 1 }, .ok ())

/-- One CSV field of `export_csv`, lines 574-579: newlines flattened,
quotes doubled, then quoted if it holds a `;` or a quote. -/
def csvField (c : String) : String :=
  let c1 := (c.replace "\n" " ").replace "\r" " "
  let c2 := c1.replace "\"" "\"\""
  if c2.contains ';' || c2.contains '"' then "\"" ++ c2 ++ "\"" else c2

/-- Lines 557-588, `export_csv`: save dialog (cancel yields
`CANCELLED`), SELECT ordered newest-first (db call 0), CSV content
built and written with a UTF-8 BOM; a failed write raises into the
outer `except`. Payload: the path and row count. -/
def export_csv (env : ApiEnv) (st : DbState) : ApiRes (String × Nat) :=
  match env.savePath with
  | none => .err "CANCELLED"
  | some path =>
    if env.dbFail 0 then .err "INTERNAL_ERROR"
    else
      let rows := List.insertionSort txOrderDesc st.txs
      let lns := "Сумма;Комментарий;Дата" ::
        rows.map (fun r =>
          env.floatStr r.amount ++ ";" ++ csvField r.comment ++ ";" ++ r.created_at)
      let _content := "\uFEFF" ++ String.intercalate "\n" lns
      if env.writeOk then .ok (path, rows.length) else .err "INTERNAL_ERROR"

/-- Lines 590-624, `backup_json`: save dialog, SELECT ordered
newest-first (db call 0), JSON payload written; a failed write raises
into the outer `except`. Payload: the path and item count. -/
def backup_json (env : ApiEnv) (st : DbState) : ApiRes (String × Nat) :=
  match env.savePath with
  | none => .err "CANCELLED"
  | some path =>
    if env.dbFail 0 then .err "INTERNAL_ERROR"
    else
      let items := (List.insertionSort txOrderDesc st.txs).map toItem
      if env.writeOk then .ok (path, items.length) else .err "INTERNAL_ERROR"

/-- Result is a success payload or one of the listed tagged error
codes — the shape every store operation must return. -/
def tagged {α : Type} (allowed : List String) : ApiRes α → Prop
  | .ok _ => True
  | .err c => c ∈ allowed

/-! ## Sample environments used to instantiate the theorems -/

/-- Launch environment of a quiet machine: no dev lock, every port
reported closed. -/
def launchEnv0 : LaunchEnv :=
  { dev := false
    isWindows := false
    lockExists := false
    preferred := 3000
    uiDir := "C:\\app\\ui"
    listenPid := none
    cmdline := ""
    killSucceeds := true
    unlinkOk := true
    ephemeralPort := 49152
    httpHealthy := fun _ => false
    portOpen := fun _ _ => false }

/-- API environment with a transparent hash, no parseable strings, no
injected database failures. -/
def apiEnv0 : ApiEnv :=
  { hash := fun s => "h:" ++ s
    parseFloat := fun _ => none
    floatStr := fun _ => ""
    dbFail := fun _ => false
    now_ms := 1700000000000
    nowIso := "2024-01-01T00:00:00+00:00"
    savePath := none
    writeOk := true }

/-- Small transaction store: two rows, the older one first. -/
def dbState0 : DbState :=
  { users := [{ username := "triazov", password_hash := "h:winner123234", status := "developer" }]
    txs := [{ id := 1, amount := 5, comment := "a", created_at := "2024-01-01T00:00:00+00:00" },
            { id := 2, amount := 7, comment := "b", created_at := "2024-02-01T00:00:00+00:00" }]
    commits := 0 }

end TorCalc

namespace TorCalc

/-! ## Helper lemmas -/

theorem waitLoop_spec (p : Nat → Bool) (d : Nat → Nat) (dl : Nat) :
    ∀ t n,
      (∀ x ∈ (waitLoop p d dl t n).2, x < dl) ∧
      (∀ m s, (waitLoop p d dl t n).1 = WaitOutcome.healthy m s →
        p m = true ∧ s < dl ∧ n ≤ m ∧ ∀ j, n ≤ j → j < m → p j = false) ∧
      ((∀ j, p j = false) → (waitLoop p d dl t n).1 = WaitOutcome.timedOut) := by
  have H : ∀ fuel t n, dl - t ≤ fuel →
      (∀ x ∈ (waitLoop p d dl t n).2, x < dl) ∧
      (∀ m s, (waitLoop p d dl t n).1 = WaitOutcome.healthy m s →
        p m = true ∧ s < dl ∧ n ≤ m ∧ ∀ j, n ≤ j → j < m → p j = false) ∧
      ((∀ j, p j = false) → (waitLoop p d dl t n).1 = WaitOutcome.timedOut) := by
    intro fuel
    induction fuel with
    | zero =>
      intro t n hle
      have ht : ¬ t < dl := by omega
      rw [waitLoop]
      simp [ht]
    | succ f ih =>
      intro t n hle
      by_cases ht : t < dl
      · by_cases hp : p n = true
        · rw [waitLoop, dif_pos ht, if_pos hp]
          refine ⟨?_, ?_, ?_⟩
          · intro x hx
            have hxt : x = t := by simpa using hx
            subst hxt
            exact ht
          · intro m s hm
            cases hm
            exact ⟨hp, ht, le_refl n, fun j h1 h2 => by omega⟩
          · intro hall
            exact absurd hp (by simp [hall n])
        · have hp' : p n = false := by simpa using hp
          have hrec := ih (t + d n + 100) (n + 1) (by omega)
          rw [waitLoop, dif_pos ht, if_neg (by simp [hp'])]
          refine ⟨?_, ?_, ?_⟩
          · intro x hx
            rcases (by simpa using hx :
                x = t ∨ x ∈ (waitLoop p d dl (t + d n + 100) (n + 1)).2) with rfl | hx'
            · exact ht
            · exact hrec.1 x hx'
          · intro m s hm
            have h2 := hrec.2.1 m s hm
            refine ⟨h2.1, h2.2.1, by omega, ?_⟩
            intro j h1j hjm
            by_cases hj : j = n
            · subst hj; exact hp'
            · exact h2.2.2.2 j (by omega) hjm
          · intro hall
            exact hrec.2.2 hall
      · rw [waitLoop, dif_neg ht]
        refine ⟨by simp, ?_, fun _ => rfl⟩
        intro m s hm
        cases hm
  exact fun t n => H (dl - t) t n le_rfl

theorem scanPorts_static (g : Nat → Bool) :
    ∀ (n a k : Nat),
      ((scanPorts (fun _ p => g p) (List.range' a n) k).1 = none →
        ∀ i, i < n → g (a + i) = true) ∧
      (∀ p, (scanPorts (fun _ p => g p) (List.range' a n) k).1 = some p →
        ∃ i, i < n ∧ p = a + i ∧ g p = false ∧ ∀ j, j < i → g (a + j) = true) := by
  intro n
  induction n with
  | zero => intro a k; simp [scanPorts]
  | succ m ih =>
    intro a k
    rw [List.range'_succ]
    by_cases hg : g a = true
    · have h1 := ih (a + 1) (k + 1)
      constructor
      · intro hnone i hi
        match i with
        | 0 => simpa using hg
        | Nat.succ i' =>
          have := h1.1 (by simpa [scanPorts, hg] using hnone) i' (by omega)
          convert this using 2
          omega
      · intro p hp
        have hp' : (scanPorts (fun _ p => g p) (List.range' (a + 1) m) (k + 1)).1 = some p := by
          simpa [scanPorts, hg] using hp
        obtain ⟨i, hi, hpi, hgp, hbefore⟩ := h1.2 p hp'
        refine ⟨i + 1, by omega, by omega, hgp, ?_⟩
        intro j hj
        match j with
        | 0 => simpa using hg
        | Nat.succ j' =>
          have := hbefore j' (by omega)
          convert this using 2
          omega
    · have hg' : g a = false := by simpa using hg
      constructor
      · intro hnone
        simp [scanPorts, hg'] at hnone
      · intro p hp
        have hpa : p = a := by
          simp [scanPorts, hg'] at hp
          omega
        subst hpa
        exact ⟨0, by omega, by omega, hg', by omega⟩

theorem launchFlow_lockDeleted (e : LaunchEnv) :
    (launchFlow e).lockDeleted = (recoverPhase e).lockDeleted := rfl

theorem launchFlow_killedPid (e : LaunchEnv) :
    (launchFlow e).killedPid = (recoverPhase e).killedPid := rfl

/-! ## Claim theorems -/

/-- C1: during dev-mode stale-state recovery (lock present, liveness
probe failed), if the process on the target port has a command line
that does not reference both the UI root path and the companion-server
entrypoint, then the kill is never invoked on it and — the port being
still open — the lock file is not deleted. -/
theorem stale_recovery_no_kill_on_mismatch (e : LaunchEnv) (pid : Nat)
    (hdev : e.dev = true) (hlock : e.lockExists = true)
    (hprobe : e.httpHealthy 0 = false)
    (hpid : e.listenPid = some pid)
    (hsig : strContains (pyLower e.cmdline) (pyLower e.uiDir) = false ∨
      strContains (pyLower e.cmdline) nextEntrySig = false)
    (hopen : e.portOpen 0 e.preferred = true) :
    (launchFlow e).killedPid = none ∧ (launchFlow e).lockDeleted = false := by
  have hmatch : looksLikeOurNext e.uiDir e.cmdline = false := by
    unfold looksLikeOurNext
    rcases hsig with h | h <;> simp [h]
  rw [launchFlow_killedPid, launchFlow_lockDeleted]
  unfold recoverPhase
  simp [hdev, hlock, hprobe, hpid, hmatch, hopen]

/-- Witness for C1: an unrelated Python HTTP server holds the port; no
kill, no lock deletion. -/
theorem stale_recovery_no_kill_on_mismatch_witness :
    (let e := { launchEnv0 with
      dev := true, lockExists := true, isWindows := true,
      listenPid := some 4242, cmdline := "python -m http.server 3000",
      portOpen := fun _ _ => true };
    e.dev = true ∧ e.lockExists = true ∧ e.httpHealthy 0 = false ∧
      e.listenPid = some 4242 ∧
      strContains (pyLower e.cmdline) (pyLower e.uiDir) = false ∧
      e.portOpen 0 e.preferred = true ∧
      (launchFlow e).killedPid = none ∧ (launchFlow e).lockDeleted = false) := by
  refine ⟨rfl, rfl, rfl, rfl, by decide, rfl, ?_⟩
  exact stale_recovery_no_kill_on_mismatch _ 4242 rfl rfl rfl rfl (Or.inl (by decide)) rfl

/-- C2: the dev lock artifact is deleted only when the `is_port_open`
connect check of line 751 has just reported the port not open; the
deletion decision ignores the return status of the kill attempt, and a
port still open after recovery leaves the lock in place. -/
theorem lock_deleted_only_when_port_closed (e : LaunchEnv) :
    ((launchFlow e).lockDeleted = true → e.portOpen 0 e.preferred = false) ∧
    (∀ b, (launchFlow { e with killSucceeds := b }).lockDeleted =
      (launchFlow e).lockDeleted) ∧
    (e.portOpen 0 e.preferred = true → (launchFlow e).lockDeleted = false) := by
  refine ⟨?_, fun b => rfl, ?_⟩
  · rw [launchFlow_lockDeleted]
    unfold recoverPhase
    by_cases h1 : e.dev && e.lockExists
    · by_cases h2 : e.httpHealthy 0
      · simp [h1, h2]
      · by_cases h3 : e.portOpen 0 e.preferred
        · simp [h1, h2, h3]
        · intro _
          simpa using h3
    · simp [h1]
  · intro hopen
    rw [launchFlow_lockDeleted]
    unfold recoverPhase
    by_cases h1 : e.dev && e.lockExists
    · by_cases h2 : e.httpHealthy 0
      · simp [h1, h2]
      · simp [h1, h2, hopen]
    · simp [h1]

/-- Witness for C2: in a recovery where the port check reports closed,
the lock is deleted, and the deletion is confirmed to entail the closed
answer of the check. -/
theorem lock_deleted_only_when_port_closed_witness :
    (let e := { launchEnv0 with dev := true, lockExists := true };
    (launchFlow e).lockDeleted = true ∧ e.portOpen 0 e.preferred = false) := by
  refine ⟨by decide, ?_⟩
  exact (lock_deleted_only_when_port_closed _).1 (by decide)

/-- C3: with preferred port P and max tries N, the arbiter returns P
when the connect check reports it free; otherwise the first free port
among P+1 … P+N (hence never P); and when every port of [P, P+N] is
occupied, the OS-assigned ephemeral port. `g` is the point-in-time
"port is open" oracle shared by every check of one arbitration. -/
theorem pick_free_port_spec (g : Nat → Bool) (eph P N k : Nat) :
    (g P = false → (pick_free_port (fun _ p => g p) eph P N k).1 = P) ∧
    (g P = true → (∃ i, i < N ∧ g (P + 1 + i) = false) →
      ∃ j, j < N ∧ (pick_free_port (fun _ p => g p) eph P N k).1 = P + 1 + j ∧
        g (P + 1 + j) = false ∧ (∀ j', j' < j → g (P + 1 + j') = true) ∧
        P + 1 + j ≠ P) ∧
    ((∀ q, P ≤ q → q ≤ P + N → g q = true) →
      (pick_free_port (fun _ p => g p) eph P N k).1 = eph) := by
  refine ⟨?_, ?_, ?_⟩
  · intro hfree
    unfold pick_free_port
    simp [hfree]
  · intro hocc ⟨i, hi, hgi⟩
    unfold pick_free_port
    rw [if_neg (by simp [hocc])]
    rcases hscan : (scanPorts (fun _ p => g p) (List.range' (P + 1) N) (k + 1)) with ⟨o, k'⟩
    cases o with
    | none =>
      exfalso
      have := (scanPorts_static g N (P + 1) (k + 1)).1 (by rw [hscan]) i hi
      rw [this] at hgi
      cases hgi
    | some q =>
      obtain ⟨j, hj, hqj, hgq, hbefore⟩ :=
        (scanPorts_static g N (P + 1) (k + 1)).2 q (by rw [hscan])
      refine ⟨j, hj, ?_, by rwa [← hqj], fun j' hj' => hbefore j' hj', by omega⟩
      simp only [hscan]
      omega
  · intro hall
    unfold pick_free_port
    rw [if_neg (by simp [hall P le_rfl (by omega)])]
    rcases hscan : (scanPorts (fun _ p => g p) (List.range' (P + 1) N) (k + 1)) with ⟨o, k'⟩
    cases o with
    | some q =>
      exfalso
      obtain ⟨j, hj, hqj, hgq, _⟩ :=
        (scanPorts_static g N (P + 1) (k + 1)).2 q (by rw [hscan])
      rw [hall q (by omega) (by omega)] at hgq
      cases hgq
    | none => rfl

/-- Witness for C3: preferred port 3000 and 3001 occupied, 3002 free;
the arbiter lands in the fallback range on 3002. -/
theorem pick_free_port_spec_witness :
    ((fun p => decide (p ≤ 3001)) 3000 = true) ∧
    (∃ j, j < 25 ∧
      (pick_free_port (fun _ p => decide (p ≤ 3001)) 49152 3000 25 0).1 = 3000 + 1 + j ∧
      (fun p => decide (p ≤ 3001)) (3000 + 1 + j) = false ∧
      (∀ j', j' < j → (fun p => decide (p ≤ 3001)) (3000 + 1 + j') = true) ∧
      3000 + 1 + j ≠ 3000) :=
  ⟨by decide,
    (pick_free_port_spec (fun p => decide (p ≤ 3001)) 49152 3000 25 0).2.1
      (by decide) ⟨1, by decide⟩⟩

/-- C4: the liveness probe reports healthy exactly for a drained
response with status in [200, 500): 200 and 404 are healthy, any status
of 500 or more is unhealthy, and a connection error or timeout yields
`false` rather than an exception. -/
theorem is_http_healthy_spec :
    is_http_healthy (.response 200) = true ∧
    is_http_healthy (.response 404) = true ∧
    (∀ s, 500 ≤ s → is_http_healthy (.response s) = false) ∧
    is_http_healthy .failure = false ∧
    (∀ o, is_http_healthy o = true ↔
      ∃ s, o = .response s ∧ 200 ≤ s ∧ s < 500) := by
  refine ⟨rfl, rfl, ?_, rfl, ?_⟩
  · intro s hs
    simp only [is_http_healthy, decide_eq_false_iff_not]
    omega
  · intro o
    cases o with
    | response s =>
      simp only [is_http_healthy, decide_eq_true_eq, HttpOutcome.response.injEq]
      constructor
      · exact fun h => ⟨s, rfl, h⟩
      · rintro ⟨s', rfl, h⟩
        exact h
    | failure =>
      simp [is_http_healthy]

/-- Witness for C4: status 500 is reported unhealthy. -/
theorem is_http_healthy_spec_witness :
    (500 ≤ 500) ∧ is_http_healthy (.response 500) = false :=
  ⟨by decide, is_http_healthy_spec.2.2.1 500 (by decide)⟩

/-- C5: `wait_for_http` polls at a fixed 100 ms interval; every probe
starts before the deadline `start + timeout`; a normal return means the
returned probe succeeded and every earlier probe failed; if no probe
ever succeeds the loop raises the timeout error. -/
theorem wait_for_http_spec (p : Nat → Bool) (d : Nat → Nat) (start timeout : Nat) :
    (∀ x ∈ (wait_for_http p d start timeout).2, x < start + timeout) ∧
    (∀ m s, (wait_for_http p d start timeout).1 = WaitOutcome.healthy m s →
      p m = true ∧ s < start + timeout ∧ ∀ j, j < m → p j = false) ∧
    ((∀ j, p j = false) → (wait_for_http p d start timeout).1 = WaitOutcome.timedOut) := by
  have h := waitLoop_spec p d (start + timeout) start 0
  refine ⟨h.1, ?_, h.2.2⟩
  intro m s hm
  have h2 := h.2.1 m s hm
  exact ⟨h2.1, h2.2.1, fun j hj => h2.2.2.2 j (Nat.zero_le j) hj⟩

/-- Witness for C5: a server that never becomes healthy times out. -/
theorem wait_for_http_spec_witness :
    (∀ j, (fun _ : Nat => false) j = false) ∧
    (wait_for_http (fun _ : Nat => false) (fun _ => 0) 0 500).1 = WaitOutcome.timedOut :=
  ⟨fun _ => rfl,
    (wait_for_http_spec (fun _ => false) (fun _ => 0) 0 500).2.2 (fun _ => rfl)⟩

/-- C6: in any single launch the companion server is spawned at most
once, and only when the spawn guard — the `is_port_open` check
immediately preceding the spawn call — reported the final port not
open. -/
theorem spawn_once_and_guarded (e : LaunchEnv) :
    (launchFlow e).spawnCount ≤ 1 ∧
    ((launchFlow e).spawnCount = 1 →
      e.portOpen (launchFlow e).guardIdx (launchFlow e).port = false) := by
  unfold launchFlow
  by_cases h : e.portOpen (portPhase e (recoverPhase e).hIdx (recoverPhase e).kIdx).2
      (portPhase e (recoverPhase e).hIdx (recoverPhase e).kIdx).1 <;>
    simp [h]

/-- Witness for C6: on a quiet machine the server is spawned exactly
once, and the guard check on the final port reported it closed. -/
theorem spawn_once_and_guarded_witness :
    (launchFlow launchEnv0).spawnCount = 1 ∧
    launchEnv0.portOpen (launchFlow launchEnv0).guardIdx (launchFlow launchEnv0).port = false :=
  ⟨by decide, (spawn_once_and_guarded launchEnv0).2 (by decide)⟩

/-- C7: every persisted-store operation of the desktop API returns a
success payload or one of its tagged error codes, for every input and
every injected database/dialog/write failure — no exception crosses the
operation boundary (each Lean model is a total function into `ApiRes`). -/
theorem api_operations_never_raise (env : ApiEnv) (st : DbState)
    (u pw : String) (a : PyNum) (c : String) (i : Int) :
    tagged ["EMPTY_CREDENTIALS", "INVALID_CREDENTIALS", "INTERNAL_ERROR"]
      (auth_login env st u pw) ∧
    tagged ["INTERNAL_ERROR"] (transactions_list env st) ∧
    tagged ["INVALID_AMOUNT", "INTERNAL_ERROR"] (transaction_add env st a c).2 ∧
    tagged ["INTERNAL_ERROR"] (transaction_delete env st i).2 ∧
    tagged ["INTERNAL_ERROR"] (transactions_clear env st).2 ∧
    tagged ["CANCELLED", "INTERNAL_ERROR"] (export_csv env st) ∧
    tagged ["CANCELLED", "INTERNAL_ERROR"] (backup_json env st) := by
  refine ⟨?_, ?_, ?_, ?_, ?_, ?_, ?_⟩
  · unfold auth_login tagged
    split
    · trivial
    · rename_i heq
      repeat (first | split at heq | simp_all)
  · unfold transactions_list tagged
    split
    · trivial
    · rename_i heq
      repeat (first | split at heq | simp_all)
  · unfold transaction_add tagged
    split
    · trivial
    · rename_i heq
      repeat (first | split at heq | simp_all)
  · unfold transaction_delete tagged
    split
    · trivial
    · rename_i heq
      repeat (first | split at heq | simp_all)
  · unfold transactions_clear tagged
    split
    · trivial
    · rename_i heq
      repeat (first | split at heq | simp_all)
  · unfold export_csv tagged
    split
    · trivial
    · rename_i heq
      repeat (first | split at heq | simp_all)
  · unfold backup_json tagged
    split
    · trivial
    · rename_i heq
      repeat (first | split at heq | simp_all)

/-- C8: on success, `transactions_list` returns the stored rows ordered
newest-first by creation timestamp, each item carrying the row's id,
amount, comment and creation timestamp. -/
theorem transactions_list_newest_first (env : ApiEnv) (st : DbState)
    (hdb : env.dbFail 0 = false) :
    ∃ items, transactions_list env st = .ok items ∧
      items.Pairwise (fun a b => b.createdAt ≤ a.createdAt) ∧
      items.Perm (st.txs.map toItem) ∧
      ∀ it ∈ items, ∃ r ∈ st.txs, it = toItem r := by
  refine ⟨(List.insertionSort txOrderDesc st.txs).map toItem, ?_, ?_, ?_, ?_⟩
  · simp [transactions_list, hdb]
  · have hs := List.sorted_insertionSort txOrderDesc st.txs
    exact List.Pairwise.map toItem (fun a b hab => hab) hs
  · exact (List.perm_insertionSort txOrderDesc st.txs).map toItem
  · intro it hit
    obtain ⟨r, hr, rfl⟩ := List.mem_map.mp hit
    exact ⟨r, (List.mem_insertionSort txOrderDesc).mp hr, rfl⟩

/-- Witness for C8: concrete two-row store, listed without failure. -/
theorem transactions_list_newest_first_witness :
    apiEnv0.dbFail 0 = false ∧
    (∃ items, transactions_list apiEnv0 dbState0 = .ok items ∧
      items.Pairwise (fun a b => b.createdAt ≤ a.createdAt) ∧
      items.Perm (dbState0.txs.map toItem) ∧
      ∀ it ∈ items, ∃ r ∈ dbState0.txs, it = toItem r) :=
  ⟨rfl, transactions_list_newest_first apiEnv0 dbState0 rfl⟩

/-- C9: `transaction_add` with an inconvertible amount returns the
tagged error `INVALID_AMOUNT` and leaves the store untouched (no row,
no commit); with a convertible amount and no database failure the
returned item echoes the converted number and the stripped comment. -/
theorem transaction_add_invalid_amount (env : ApiEnv) (st : DbState)
    (a : PyNum) (c : String) :
    (floatVal env a = none →
      transaction_add env st a c = (st, .err "INVALID_AMOUNT")) ∧
    (∀ q, floatVal env a = some q → env.dbFail 0 = false → env.dbFail 1 = false →
      (transaction_add env st a c).2 =
        .ok { id := env.now_ms, amount := q, comment := pyStrip c,
              createdAt := env.nowIso }) := by
  constructor
  · intro h
    simp [transaction_add, h]
  · intro q hq h0 h1
    simp [transaction_add, hq, h0, h1]

/-- Witness for C9: the amount "abc" does not convert; the store (rows
and commit counter) is returned unchanged with `INVALID_AMOUNT`. -/
theorem transaction_add_invalid_amount_witness :
    floatVal apiEnv0 (.str "abc") = none ∧
    transaction_add apiEnv0 dbState0 (.str "abc") " note " =
      (dbState0, .err "INVALID_AMOUNT") :=
  ⟨rfl, (transaction_add_invalid_amount apiEnv0 dbState0 (.str "abc") " note ").1 rfl⟩

/-- C10: `auth_login` yields `EMPTY_CREDENTIALS` exactly when the
trimmed-and-lowercased username or the password is empty; otherwise an
unknown username and a wrong password for a known username both yield
the identical `INVALID_CREDENTIALS`, and a correct pair returns the
stored username and status. -/
theorem auth_login_spec (env : ApiEnv) (st : DbState) (u pw : String) :
    (auth_login env st u pw = .err "EMPTY_CREDENTIALS" ↔
      pyLower (pyStrip u) = "" ∨ pw = "") ∧
    (env.dbFail 0 = false → pyLower (pyStrip u) ≠ "" → pw ≠ "" →
      ((st.users.find? (fun r => r.username = pyLower (pyStrip u)) = none →
          auth_login env st u pw = .err "INVALID_CREDENTIALS") ∧
       (∀ row, st.users.find? (fun r => r.username = pyLower (pyStrip u)) = some row →
          env.hash pw ≠ row.password_hash →
          auth_login env st u pw = .err "INVALID_CREDENTIALS") ∧
       (∀ row, st.users.find? (fun r => r.username = pyLower (pyStrip u)) = some row →
          env.hash pw = row.password_hash →
          auth_login env st u pw = .ok (row.username, row.status)))) := by
  constructor
  · constructor
    · intro h
      by_contra hempty
      simp only [auth_login] at h
      repeat (first | split at h | simp_all)
    · intro h
      simp only [auth_login]
      have hcond : (decide (pyLower (pyStrip u) = "") || decide (pw = "")) = true := by
        rcases h with h | h <;> simp [h]
      rw [if_pos hcond]
  · intro hdb hu hpw
    have hcond : ¬((decide (pyLower (pyStrip u) = "") || decide (pw = "")) = true) := by
      simp only [Bool.or_eq_true, decide_eq_true_eq]
      rintro (h | h)
      · exact hu h
      · exact hpw h
    have hdb' : ¬(env.dbFail 0 = true) := by simp [hdb]
    refine ⟨?_, ?_, ?_⟩
    · intro hfind
      simp only [auth_login]
      rw [if_neg hcond, if_neg hdb', hfind]
    · intro row hfind hh
      simp only [auth_login]
      rw [if_neg hcond, if_neg hdb', hfind]
      simp [hh]
    · intro row hfind hh
      simp only [auth_login]
      rw [if_neg hcond, if_neg hdb', hfind]
      simp [hh]

/-- Witness for C10: logging in as " Triazov " (trimmed and lowercased
to the stored "triazov") with the matching password returns the stored
username and status. -/
theorem auth_login_spec_witness :
    apiEnv0.dbFail 0 = false ∧ pyLower (pyStrip " Triazov ") ≠ "" ∧
    ("winner123234" : String) ≠ "" ∧
    dbState0.users.find? (fun r => r.username = pyLower (pyStrip " Triazov ")) =
      some { username := "triazov", password_hash := "h:winner123234",
             status := "developer" } ∧
    apiEnv0.hash "winner123234" = "h:winner123234" ∧
    auth_login apiEnv0 dbState0 " Triazov " "winner123234" =
      .ok ("triazov", "developer") := by
  refine ⟨rfl, by decide, by decide, by decide, rfl, ?_⟩
  exact (auth_login_spec apiEnv0 dbState0 " Triazov " "winner123234").2 rfl
    (by decide) (by decide) |>.2.2
    { username := "triazov", password_hash := "h:winner123234", status := "developer" }
    (by decide) rfl

end TorCalc
